import Mathlib

/-!
Shallow embedding of the conflict detection / resolution-suggestion engine of
the ClassScheduleManager repository.

The HTTP routes (`registerRoutes` in `src/server/storage.ts`) operate on the
singleton `storage = new MemStorage()`, so the operative engine is the
`MemStorage` implementation in `src/server/storage.ts`; the unused
`DatabaseStorage` near-duplicate is noted where it diverges.

Modelling conventions:
* JavaScript numbers holding ids, days, slots and semesters are modelled as
  `Nat` (the schema declares them as non-negative integers: dayOfWeek 0..6,
  timeSlot 0..4, serial ids starting at 1).  Under this domain the string
  grouping key `dayOfWeek-timeSlot` used by the source is injective, so it is
  modelled directly by the pair `(dayOfWeek, timeSlot)`.
* A JavaScript `Map` keyed by record id is modelled as the insertion-ordered
  list of its values; `Map.get` is `List.find?` on the id and `Map.set` on an
  existing key is an in-place update.
* `uuidv4()` is modelled as a fresh-token counter (field `uuid` of `State`):
  each generated suggestion id is the current counter value and the counter
  advances, so ids produced later are always new.
* `MemStorage.detectConflicts` stores the detected conflicts and pushes them
  onto the returned array synchronously (via the already-settled
  `createConflict` promises, whose `then` callbacks run before the caller's
  continuation), but it dispatches
  `generateConflictSuggestions(id).then(s => updateConflict(id, {suggestions: s}))`
  without awaiting it.  `detectConflictsRet` below is the store state and the
  returned list at the moment the caller resumes: the conflicts are present,
  each with `suggestions = []`; the suggestion attachment is still pending.
-/

namespace ClassSchedule

/-- TimePreference record from `@shared/schema` (`src/unnamed/part_005`). -/
structure TimePreference where
  dayOfWeek : Nat
  startTimeSlot : Nat
  endTimeSlot : Nat
  deriving DecidableEq, Repr

/-- Teacher record (`teachers` table, `src/unnamed/part_005`); `specialization`,
`skills` and `timePreferences` are nullable columns. -/
structure Teacher where
  id : Nat
  name : String
  specialization : Option String := none
  skills : Option (List String) := none
  timePreferences : Option (List TimePreference) := none
  deriving DecidableEq, Repr

/-- Course record (`courses` table); only `id` and `name` are read by the
engine (for rendering descriptions). -/
structure Course where
  id : Nat
  name : String
  code : String := ""
  credits : Nat := 0
  color : String := ""
  isCore : Bool := true
  programId : Nat := 0
  semester : Nat := 1
  deriving DecidableEq, Repr

/-- Schedule entry record (`schedules` table). -/
structure Schedule where
  id : Nat
  programId : Nat
  semester : Nat
  dayOfWeek : Nat
  timeSlot : Nat
  courseId : Nat
  teacherId : Nat
  roomNumber : Option String := none
  deriving DecidableEq, Repr

/-- The `action` discriminator of a ConflictSuggestion. -/
inductive SuggestionAction where
  | move
  | swap
  | reassign
  deriving DecidableEq, Repr

/-- ConflictSuggestion record (`src/unnamed/part_005`); the uuid string id is
modelled as a `Nat` token. -/
structure ConflictSuggestion where
  id : Nat
  description : String
  action : SuggestionAction
  scheduleId : Nat
  newDayOfWeek : Option Nat := none
  newTimeSlot : Option Nat := none
  newTeacherId : Option Nat := none
  swapWithScheduleId : Option Nat := none
  deriving DecidableEq, Repr

/-- Conflict record (`conflicts` table). -/
structure Conflict where
  id : Nat
  teacherId : Nat
  dayOfWeek : Nat
  timeSlot : Nat
  conflictingScheduleIds : List Nat
  resolved : Bool
  suggestions : List ConflictSuggestion
  deriving DecidableEq, Repr

/-- The part of the `MemStorage` state the engine reads and writes: the four
record maps (as insertion-ordered value lists), the conflict id counter and
the uuid freshness counter.  Programs and the course/teacher/schedule id
counters are untouched by every operation modelled here. -/
structure State where
  courses : List Course
  teachers : List Teacher
  schedules : List Schedule
  conflicts : List Conflict
  conflictId : Nat
  uuid : Nat
  deriving DecidableEq, Repr

/-- `this.schedules.get(id)` / `schedules.find(s => s.id === id)`. -/
def findSchedule (s : State) (id : Nat) : Option Schedule :=
  s.schedules.find? fun sch => sch.id == id

/-- `this.teachers.get(id)` (`getTeacherById`). -/
def findTeacher (s : State) (id : Nat) : Option Teacher :=
  s.teachers.find? fun t => t.id == id

/-- `this.courses.get(id)` (`getCourseById`). -/
def findCourse (s : State) (id : Nat) : Option Course :=
  s.courses.find? fun c => c.id == id

/-- `this.conflicts.get(id)` (`getConflictById`). -/
def findConflict (s : State) (id : Nat) : Option Conflict :=
  s.conflicts.find? fun c => c.id == id

/-! ### Conflict detection (`MemStorage.detectConflicts`, storage.ts 232-286)

The source groups the schedule list into a `Map` keyed by teacher id whose
values are `Map`s keyed by the `day-slot` string.  A JavaScript `Map`
iterates its keys in first-insertion order, so the outer iteration visits
teacher ids in order of first occurrence in the schedule list and, for each
teacher, the inner iteration visits that teacher's (day, slot) pairs in order
of first occurrence; each group's value is the list of schedule ids pushed in
list order. -/

/-- The key iteration order of a JavaScript `Map` built by inserting the
given keys in order: keep a key when it is not among those already seen
(the source's `if (!map.has(key)) map.set(key, ...)`). -/
def firstDedupAux [DecidableEq α] (seen : List α) : List α → List α
  | [] => []
  | a :: l =>
    if a ∈ seen then firstDedupAux seen l
    else a :: firstDedupAux (a :: seen) l

/-- First-occurrence deduplication. -/
def firstDedup [DecidableEq α] (l : List α) : List α :=
  firstDedupAux [] l

theorem mem_firstDedupAux [DecidableEq α] (l : List α) :
    ∀ (seen : List α) (b : α),
      b ∈ firstDedupAux seen l ↔ b ∈ l ∧ b ∉ seen := by
  induction l with
  | nil => intro seen b; simp [firstDedupAux]
  | cons a l ih =>
    intro seen b
    by_cases ha : a ∈ seen
    · rw [firstDedupAux, if_pos ha, ih]
      constructor
      · rintro ⟨h1, h2⟩
        exact ⟨List.mem_cons_of_mem _ h1, h2⟩
      · rintro ⟨h1, h2⟩
        rcases List.mem_cons.1 h1 with rfl | h1
        · exact absurd ha h2
        · exact ⟨h1, h2⟩
    · rw [firstDedupAux, if_neg ha]
      constructor
      · intro h
        rcases List.mem_cons.1 h with rfl | h
        · exact ⟨List.mem_cons_self _ _, ha⟩
        · rcases (ih _ _).1 h with ⟨h1, h2⟩
          simp only [List.mem_cons, not_or] at h2
          exact ⟨List.mem_cons_of_mem _ h1, h2.2⟩
      · rintro ⟨h1, h2⟩
        rcases List.mem_cons.1 h1 with rfl | h1
        · exact List.mem_cons_self _ _
        · by_cases hb : b = a
          · subst hb; exact List.mem_cons_self _ _
          · refine List.mem_cons_of_mem _ ((ih _ _).2 ⟨h1, ?_⟩)
            simp only [List.mem_cons, not_or]
            exact ⟨hb, h2⟩

theorem mem_firstDedup [DecidableEq α] (l : List α) (b : α) :
    b ∈ firstDedup l ↔ b ∈ l := by
  unfold firstDedup
  rw [mem_firstDedupAux]
  simp

theorem nodup_firstDedupAux [DecidableEq α] (l : List α) :
    ∀ seen : List α, (firstDedupAux seen l).Nodup := by
  induction l with
  | nil => intro seen; simp [firstDedupAux]
  | cons a l ih =>
    intro seen
    by_cases ha : a ∈ seen
    · rw [firstDedupAux, if_pos ha]
      exact ih seen
    · rw [firstDedupAux, if_neg ha]
      refine List.nodup_cons.2 ⟨?_, ih _⟩
      intro hmem
      have := (mem_firstDedupAux l _ a).1 hmem
      exact this.2 (List.mem_cons_self _ _)

theorem nodup_firstDedup [DecidableEq α] (l : List α) :
    (firstDedup l).Nodup :=
  nodup_firstDedupAux l []

/-- Teacher ids in outer-`Map` iteration order. -/
def teacherOrder (ss : List Schedule) : List Nat :=
  firstDedup (ss.map fun sch => sch.teacherId)

/-- A teacher's (day, slot) keys in inner-`Map` iteration order. -/
def slotOrderFor (ss : List Schedule) (t : Nat) : List (Nat × Nat) :=
  firstDedup ((ss.filter fun sch => sch.teacherId == t).map
    fun sch => (sch.dayOfWeek, sch.timeSlot))

/-- The ids pushed into the group keyed by (teacher `t`, day `d`, slot `sl`),
in schedule-list order. -/
def groupIds (ss : List Schedule) (t d sl : Nat) : List Nat :=
  (ss.filter fun sch =>
    sch.teacherId == t && sch.dayOfWeek == d && sch.timeSlot == sl).map
    fun sch => sch.id

/-- The (teacher, day, slot, scheduleIds) groups of size > 1, in the order the
source's nested `forEach` visits them. -/
def detectGroups (ss : List Schedule) : List (Nat × Nat × Nat × List Nat) :=
  (teacherOrder ss).flatMap fun t =>
    (slotOrderFor ss t).filterMap fun p =>
      let ids := groupIds ss t p.1 p.2
      if 1 < ids.length then some (t, p.1, p.2, ids) else none

/-- The conflicts `detectConflicts` creates in the store: one per oversized
group, ids counting from 1 (the counter is reset first), `resolved = false`,
`suggestions = []` (attachment is dispatched but not awaited). -/
def detectedConflicts (ss : List Schedule) : List Conflict :=
  (detectGroups ss).enum.map fun g =>
    { id := g.1 + 1
      teacherId := g.2.1
      dayOfWeek := g.2.2.1
      timeSlot := g.2.2.2.1
      conflictingScheduleIds := g.2.2.2.2
      resolved := false
      suggestions := [] }

/-- `MemStorage.detectConflicts` as observed by an awaiting caller: the
conflict store has been cleared and repopulated, the counter advanced, and
the returned array holds exactly the stored conflicts.  The fire-and-forget
`generateConflictSuggestions(...).then(updateConflict(...))` chains have not
run yet, so every stored conflict still carries `suggestions = []`. -/
def detectConflictsRet (s : State) : State × List Conflict :=
  let cs := detectedConflicts s.schedules
  ({ s with conflicts := cs, conflictId := cs.length + 1 }, cs)

/-! ### Suggestion generation
(`MemStorage.generateConflictSuggestions`, storage.ts 288-388) -/

/-- The day-name array inlined in the move/swap description templates
(storage.ts 333, 354). -/
def dayNames : List String :=
  ["Sunday", "Monday", "Tuesday", "Wednesday", "Thursday", "Friday"]

/-- The time-slot label array inlined in the description templates. -/
def slotLabelNames : List String :=
  ["6:30-7:20 AM", "7:20-8:10 AM", "8:10-9:00 AM", "9:20-10:10 AM",
   "10:10-11:00 AM"]

/-- `course?.name || 'Course'`: the looked-up course's name, falling back to
`"Course"` when the course is absent or its name is the empty (falsy)
string. -/
def courseNameFor (s : State) (courseId : Nat) : String :=
  match findCourse s courseId with
  | some c => if c.name = "" then "Course" else c.name
  | none => "Course"

/-- storage.ts 320-327: `preferenceMatch` starts `true` and is recomputed as
`timePreferences.some(...)` only when the teacher resolved and its
`timePreferences` is a non-null, non-empty (truthy-length) array. -/
def movePreferenceMatch (teacher : Option Teacher) (day slot : Nat) : Bool :=
  match teacher with
  | none => true
  | some t =>
    match t.timePreferences with
    | none => true
    | some prefs =>
      if prefs.length = 0 then true
      else prefs.any fun pref =>
        pref.dayOfWeek == day && pref.startTimeSlot ≤ slot &&
          slot ≤ pref.endTimeSlot

/-- The move-suggestion description template (storage.ts 333); note the
space before the preference annotation, kept even when the annotation is
empty. -/
def moveDescription (courseName : String) (day slot : Nat) (pm : Bool) :
    String :=
  "Move " ++ courseName ++ " to " ++ dayNames.getD day "undefined" ++ " at "
    ++ slotLabelNames.getD slot "undefined" ++ " "
    ++ (if pm then "(matches teacher preference)" else "")

/-- The (day, slot) pairs of all current schedule entries
(`occupiedSlots`, storage.ts 304-306). -/
def occupiedPairs (ss : List Schedule) : List (Nat × Nat) :=
  ss.map fun sch => (sch.dayOfWeek, sch.timeSlot)

/-- Move family for one conflicting entry `e` (storage.ts 311-340): nested
loops `day = 0..5` (outer) and `slot = 0..4` (inner), skipping the conflict's
own pair and every occupied pair.  Suggestion ids are assigned afterwards by
`assignIds`. -/
def moveSuggestionsFor (s : State) (c : Conflict) (teacher : Option Teacher)
    (occupied : List (Nat × Nat)) (e : Schedule) : List ConflictSuggestion :=
  (List.range 6).flatMap fun day =>
    (List.range 5).filterMap fun slot =>
      if day == c.dayOfWeek && slot == c.timeSlot then none
      else if (day, slot) ∈ occupied then none
      else
        let pm := movePreferenceMatch teacher day slot
        some
          { id := 0
            description := moveDescription (courseNameFor s e.courseId) day
              slot pm
            action := .move
            scheduleId := e.id
            newDayOfWeek := some day
            newTimeSlot := some slot }

/-- Swap family for one conflicting entry `e` (storage.ts 342-359): one swap
per entry of another teacher that is not itself one of the conflicting
ids. -/
def swapSuggestionsFor (s : State) (c : Conflict) (e : Schedule) :
    List ConflictSuggestion :=
  (s.schedules.filter fun o =>
      o.teacherId != c.teacherId && !(c.conflictingScheduleIds.contains o.id)).map
    fun o =>
      { id := 0
        description := "Swap " ++ courseNameFor s e.courseId ++ " with "
          ++ courseNameFor s o.courseId ++ " on "
          ++ dayNames.getD o.dayOfWeek "undefined" ++ " at "
          ++ slotLabelNames.getD o.timeSlot "undefined"
        action := .swap
        scheduleId := e.id
        swapWithScheduleId := some o.id }

/-- Reassign family for one conflicting entry `e` (storage.ts 361-384):
every other teacher, except those with an entry at the conflict's exact
(day, slot) (`otherTeacherBusy`). -/
def reassignSuggestionsFor (s : State) (c : Conflict) (e : Schedule) :
    List ConflictSuggestion :=
  (s.teachers.filter fun t => t.id != c.teacherId).filterMap fun t =>
    if s.schedules.any fun sch =>
        sch.teacherId == t.id && sch.dayOfWeek == c.dayOfWeek &&
          sch.timeSlot == c.timeSlot then
      none
    else
      some
        { id := 0
          description := "Reassign " ++ courseNameFor s e.courseId ++ " to "
            ++ t.name
          action := .reassign
          scheduleId := e.id
          newTeacherId := some t.id }

/-- The schedule entries a conflict's `conflictingScheduleIds` still resolve
to (storage.ts 292-296). -/
def validSchedulesOf (s : State) (c : Conflict) : List Schedule :=
  c.conflictingScheduleIds.filterMap (findSchedule s)

/-- The generated suggestion batch, id tokens not yet assigned: for each
still-resolving conflicting entry, moves then swaps then reassigns, or `[]`
when fewer than 2 entries resolve. -/
def suggestionCores (s : State) (c : Conflict) : List ConflictSuggestion :=
  if (validSchedulesOf s c).length < 2 then []
  else
    (validSchedulesOf s c).flatMap fun e =>
      moveSuggestionsFor s c (findTeacher s c.teacherId)
          (occupiedPairs s.schedules) e
        ++ swapSuggestionsFor s c e ++ reassignSuggestionsFor s c e

/-- Assign the fresh uuid tokens `u, u+1, ...` to a suggestion batch. -/
def assignIds (u : Nat) (l : List ConflictSuggestion) :
    List ConflictSuggestion :=
  l.enum.map fun p => { p.2 with id := u + p.1 }

/-- `MemStorage.generateConflictSuggestions` (storage.ts 288-388): a pure
read of the store except for drawing fresh uuid tokens; `[]` when the
conflict is absent or fewer than 2 of its schedule ids resolve. -/
def generateConflictSuggestions (s : State) (conflictId : Nat) :
    State × List ConflictSuggestion :=
  match findConflict s conflictId with
  | none => (s, [])
  | some c =>
    let cores := suggestionCores s c
    ({ s with uuid := s.uuid + cores.length }, assignIds s.uuid cores)

/-- `GET /api/conflicts/:id/suggestions` (storage.ts 625-635): 404 when the
conflict is absent, otherwise a freshly generated batch, returned without
being attached to the stored conflict. -/
def suggestionsRoute (s : State) (conflictId : Nat) :
    State × Option (List ConflictSuggestion) :=
  match findConflict s conflictId with
  | none => (s, none)
  | some _ =>
    let r := generateConflictSuggestions s conflictId
    (r.1, some r.2)

/-! ### Resolution (`POST /api/conflicts/:id/resolve`, storage.ts 637-701)

The route mutates schedules only through `MemStorage.updateSchedule`
(storage.ts 183-193), which itself awaits a full `detectConflicts` pass after
writing the entry.  To let theorems speak about which schedule snapshots the
detection passes consume, each operation also returns the list of snapshots
it handed to `detectConflicts`, in order. -/

/-- A partial schedule update; the route only ever patches these three
fields.  (Suggestions produced by the generator always populate the fields
their action reads, so the `undefined`-field corner of the JavaScript spread
is not exercised.) -/
structure SchedulePatch where
  dayOfWeek : Option Nat := none
  timeSlot : Option Nat := none
  teacherId : Option Nat := none
  deriving DecidableEq, Repr

/-- `{ ...existingSchedule, ...schedule }`. -/
def applyPatch (sch : Schedule) (p : SchedulePatch) : Schedule :=
  { sch with
    dayOfWeek := p.dayOfWeek.getD sch.dayOfWeek
    timeSlot := p.timeSlot.getD sch.timeSlot
    teacherId := p.teacherId.getD sch.teacherId }

/-- `Map.set` on an existing key: replace the entry with that id in place. -/
def setScheduleById (l : List Schedule) (id : Nat) (v : Schedule) :
    List Schedule :=
  l.map fun sch => if sch.id == id then v else sch

/-- `MemStorage.updateSchedule` (storage.ts 183-193): `undefined` when the id
is absent; otherwise write the merged entry, then await `detectConflicts`.
The third component is the schedule snapshot the inner detection pass ran
on. -/
def updateSchedule (s : State) (id : Nat) (p : SchedulePatch) :
    State × Option Schedule × List (List Schedule) :=
  match findSchedule s id with
  | none => (s, none, [])
  | some sch =>
    let sch1 := applyPatch sch p
    let s1 := { s with schedules := setScheduleById s.schedules id sch1 }
    ((detectConflictsRet s1).1, some sch1, [s1.schedules])

/-- `storage.updateConflict(id, { resolved: true })`: patch the conflict with
that id if present, no-op otherwise. -/
def updateConflictResolved (s : State) (cid : Nat) : State :=
  { s with
    conflicts := s.conflicts.map fun c =>
      if c.id == cid then { c with resolved := true } else c }

/-- The HTTP outcome of the resolve route: 200, 400 (`suggestionId is
required` / `Invalid swap suggestion`) or 404. -/
inductive HttpOut where
  | ok
  | badRequest
  | notFound
  deriving DecidableEq, Repr

/-- The route's common tail (storage.ts 694-698): mark the conflict resolved,
then run a final detection pass. -/
def resolveFinish (s : State) (cid : Nat) : State × List (List Schedule) :=
  let s1 := updateConflictResolved s cid
  ((detectConflictsRet s1).1, [s1.schedules])

/-- `POST /api/conflicts/:id/resolve` (storage.ts 637-701).  The request body
either carries a suggestion id or not (`!suggestionId` — uuid strings are
never falsy, so absence is the only 400 trigger there).  Returns the final
state, the HTTP outcome, and the schedule snapshots consumed by the
detection passes the call triggered. -/
def resolveRoute (s : State) (conflictId : Nat) (suggestionId : Option Nat) :
    State × HttpOut × List (List Schedule) :=
  match suggestionId with
  | none => (s, .badRequest, [])
  | some sid =>
    match findConflict s conflictId with
    | none => (s, .notFound, [])
    | some c =>
      match c.suggestions.find? fun sg => sg.id == sid with
      | none => (s, .notFound, [])
      | some sug =>
        match sug.action with
        | .move =>
          let r1 := updateSchedule s sug.scheduleId
            { dayOfWeek := sug.newDayOfWeek, timeSlot := sug.newTimeSlot }
          let r2 := resolveFinish r1.1 conflictId
          (r2.1, .ok, r1.2.2 ++ r2.2)
        | .swap =>
          match sug.swapWithScheduleId with
          | none => (s, .badRequest, [])
          | some bid =>
            match findSchedule s sug.scheduleId, findSchedule s bid with
            | some sch1, some sch2 =>
              let r1 := updateSchedule s sch1.id
                { dayOfWeek := some sch2.dayOfWeek
                  timeSlot := some sch2.timeSlot }
              let r2 := updateSchedule r1.1 sch2.id
                { dayOfWeek := some sch1.dayOfWeek
                  timeSlot := some sch1.timeSlot }
              let r3 := resolveFinish r2.1 conflictId
              (r3.1, .ok, r1.2.2 ++ r2.2.2 ++ r3.2)
            | _, _ => (s, .notFound, [])
        | .reassign =>
          let r1 := updateSchedule s sug.scheduleId
            { teacherId := sug.newTeacherId }
          let r2 := resolveFinish r1.1 conflictId
          (r2.1, .ok, r1.2.2 ++ r2.2)

/-! ### Lemmas about the detection grouping -/

/-- The semantically stable key of a conflict. -/
def conflictKey (c : Conflict) : Nat × Nat × Nat :=
  (c.teacherId, c.dayOfWeek, c.timeSlot)

theorem exists_schedule_of_groupIds_ne_nil {ss : List Schedule} {t d sl : Nat}
    (h : groupIds ss t d sl ≠ []) :
    ∃ sch ∈ ss, sch.teacherId = t ∧ sch.dayOfWeek = d ∧ sch.timeSlot = sl := by
  unfold groupIds at h
  rcases List.exists_mem_of_ne_nil _ h with ⟨i, hi⟩
  rcases List.mem_map.1 hi with ⟨sch, hsch, -⟩
  rcases List.mem_filter.1 hsch with ⟨hmem, hpred⟩
  simp only [Bool.and_eq_true, beq_iff_eq] at hpred
  exact ⟨sch, hmem, hpred.1.1, hpred.1.2, hpred.2⟩

theorem mem_teacherOrder {ss : List Schedule} {sch : Schedule}
    (h : sch ∈ ss) : sch.teacherId ∈ teacherOrder ss := by
  unfold teacherOrder
  rw [mem_firstDedup]
  exact List.mem_map_of_mem _ h

theorem mem_slotOrderFor {ss : List Schedule} {sch : Schedule}
    (h : sch ∈ ss) :
    (sch.dayOfWeek, sch.timeSlot) ∈ slotOrderFor ss sch.teacherId := by
  unfold slotOrderFor
  rw [mem_firstDedup]
  refine List.mem_map_of_mem _ (List.mem_filter.2 ⟨h, ?_⟩)
  simp

theorem mem_detectGroups_of_big {ss : List Schedule} {t d sl : Nat}
    (h : 1 < (groupIds ss t d sl).length) :
    (t, d, sl, groupIds ss t d sl) ∈ detectGroups ss := by
  have hne : groupIds ss t d sl ≠ [] := by
    intro hnil
    rw [hnil] at h
    simp at h
  rcases exists_schedule_of_groupIds_ne_nil hne with ⟨sch, hmem, ht, hd, hsl⟩
  unfold detectGroups
  rw [List.mem_flatMap]
  refine ⟨t, ht ▸ mem_teacherOrder hmem, ?_⟩
  rw [List.mem_filterMap]
  refine ⟨(d, sl), ?_, ?_⟩
  · have := mem_slotOrderFor hmem
    rw [ht, hd, hsl] at this
    exact this
  · simp only [h, if_pos]

theorem detectGroups_sound {ss : List Schedule}
    {g : Nat × Nat × Nat × List Nat} (h : g ∈ detectGroups ss) :
    g.2.2.2 = groupIds ss g.1 g.2.1 g.2.2.1 ∧ 1 < g.2.2.2.length := by
  unfold detectGroups at h
  rw [List.mem_flatMap] at h
  rcases h with ⟨t, -, hin⟩
  rw [List.mem_filterMap] at hin
  rcases hin with ⟨p, -, hp⟩
  by_cases hlen : 1 < (groupIds ss t p.1 p.2).length
  · simp only [hlen, if_pos, Option.some.injEq] at hp
    subst hp
    exact ⟨rfl, hlen⟩
  · simp [hlen] at hp

theorem detectGroups_keys_nodup (ss : List Schedule) :
    ((detectGroups ss).map fun g => (g.1, g.2.1, g.2.2.1)).Nodup := by
  unfold detectGroups
  rw [List.map_flatMap]
  rw [List.nodup_flatMap]
  constructor
  · intro t ht
    rw [List.map_filterMap]
    refine List.Nodup.filterMap ?_ (nodup_firstDedup _)
    intro p q k hk hk'
    by_cases hp : 1 < (groupIds ss t p.1 p.2).length
    · by_cases hq : 1 < (groupIds ss t q.1 q.2).length
      · simp only [hp, hq, if_pos, Option.map_some, Option.mem_def,
          Option.some.injEq] at hk hk'
        rw [← hk'] at hk
        cases p; cases q
        simpa using hk
      · simp [hq] at hk'
    · simp [hp] at hk
  · have hnd : (teacherOrder ss).Nodup := nodup_firstDedup _
    refine hnd.imp ?_
    intro t t' hne
    intro k hk hk'
    rcases List.mem_map.1 hk with ⟨g, hgmem, hgk⟩
    rcases List.mem_map.1 hk' with ⟨g', hgmem', hgk'⟩
    rcases List.mem_filterMap.1 hgmem with ⟨p, -, hp⟩
    rcases List.mem_filterMap.1 hgmem' with ⟨q, -, hq⟩
    have h1 : k.1 = t := by
      by_cases hc : 1 < (groupIds ss t p.1 p.2).length
      · simp only [hc, if_pos, Option.some.injEq] at hp
        rw [← hgk, ← hp]
      · simp [hc] at hp
    have h2 : k.1 = t' := by
      by_cases hc : 1 < (groupIds ss t' q.1 q.2).length
      · simp only [hc, if_pos, Option.some.injEq] at hq
        rw [← hgk', ← hq]
      · simp [hc] at hq
    exact hne (h1 ▸ h2)

theorem detectedConflicts_map_key (ss : List Schedule) :
    (detectedConflicts ss).map conflictKey
      = (detectGroups ss).map fun g => (g.1, g.2.1, g.2.2.1) := by
  unfold detectedConflicts
  rw [List.map_map]
  have : ((detectGroups ss).enum.map Prod.snd).map
      (fun g => (g.1, g.2.1, g.2.2.1))
      = (detectGroups ss).map fun g => (g.1, g.2.1, g.2.2.1) := by
    rw [List.enum_map_snd]
  rw [← this, List.map_map]
  rfl

theorem mem_detectedConflicts_sound {ss : List Schedule} {c : Conflict}
    (h : c ∈ detectedConflicts ss) :
    c.conflictingScheduleIds
        = groupIds ss c.teacherId c.dayOfWeek c.timeSlot ∧
      1 < c.conflictingScheduleIds.length ∧ c.resolved = false ∧
      c.suggestions = [] := by
  unfold detectedConflicts at h
  rcases List.mem_map.1 h with ⟨p, hp, hc⟩
  have hg : p.2 ∈ detectGroups ss := by
    have : p.2 ∈ (detectGroups ss).enum.map Prod.snd :=
      List.mem_map_of_mem _ hp
    rwa [List.enum_map_snd] at this
  have := detectGroups_sound hg
  subst hc
  exact ⟨this.1, this.2, rfl, rfl⟩

theorem mem_detectedConflicts_of_group {ss : List Schedule} {t d sl : Nat}
    (h : 1 < (groupIds ss t d sl).length) :
    ∃ c ∈ detectedConflicts ss, c.teacherId = t ∧ c.dayOfWeek = d ∧
      c.timeSlot = sl ∧ c.conflictingScheduleIds = groupIds ss t d sl ∧
      c.resolved = false := by
  have hg := mem_detectGroups_of_big h
  have : (t, d, sl, groupIds ss t d sl)
      ∈ (detectGroups ss).enum.map Prod.snd := by
    rw [List.enum_map_snd]; exact hg
  rcases List.mem_map.1 this with ⟨p, hp, hpeq⟩
  refine ⟨⟨p.1 + 1, t, d, sl, groupIds ss t d sl, false, []⟩,
    ?_, rfl, rfl, rfl, rfl, rfl⟩
  unfold detectedConflicts
  refine List.mem_map.2 ⟨p, hp, ?_⟩
  rw [hpeq]

/-! ### Claim theorems -/

/-- C1: `detectConflicts()` emits exactly one Conflict per
(teacherId, dayOfWeek, timeSlot) group containing more than one entry, with
`conflictingScheduleIds` exactly that group's entry ids and
`resolved = false`; a set with no (teacher, day, slot) collision (including
the empty set) yields no conflicts, and a group of exactly two entries
yields exactly one Conflict carrying exactly those two ids (content part:
conjunct 2 with `groupIds = [a, b]`; uniqueness: conjunct 3). -/
theorem claim1_detectConflicts_grouping :
    (∀ (ss : List Schedule), ∀ c ∈ detectedConflicts ss,
        c.conflictingScheduleIds
            = groupIds ss c.teacherId c.dayOfWeek c.timeSlot ∧
          1 < c.conflictingScheduleIds.length ∧ c.resolved = false) ∧
    (∀ (ss : List Schedule) (t d sl : Nat),
        1 < (groupIds ss t d sl).length →
        ∃ c ∈ detectedConflicts ss, c.teacherId = t ∧ c.dayOfWeek = d ∧
          c.timeSlot = sl ∧
          c.conflictingScheduleIds = groupIds ss t d sl ∧
          c.resolved = false) ∧
    (∀ ss : List Schedule, ((detectedConflicts ss).map conflictKey).Nodup) ∧
    (∀ ss : List Schedule,
        (∀ t d sl, (groupIds ss t d sl).length ≤ 1) →
        detectedConflicts ss = []) ∧
    (∀ s : State,
        (detectConflictsRet s).2 = detectedConflicts s.schedules ∧
        (detectConflictsRet s).1.conflicts = detectedConflicts s.schedules) := by
  refine ⟨?_, ?_, ?_, ?_, ?_⟩
  · intro ss c hc
    exact ⟨(mem_detectedConflicts_sound hc).1,
      (mem_detectedConflicts_sound hc).2.1,
      (mem_detectedConflicts_sound hc).2.2.1⟩
  · intro ss t d sl h
    exact mem_detectedConflicts_of_group h
  · intro ss
    rw [detectedConflicts_map_key]
    exact detectGroups_keys_nodup ss
  · intro ss h
    rw [List.eq_nil_iff_forall_not_mem]
    intro c hc
    have hs := mem_detectedConflicts_sound hc
    have hlt := hs.2.1
    rw [hs.1] at hlt
    exact absurd (h c.teacherId c.dayOfWeek c.timeSlot) (by omega)
  · intro s
    exact ⟨rfl, rfl⟩

/-- The concrete scenario of spec §8: two entries of teacher 1 at
(day 1, slot 2), one other non-colliding entry. -/
def demoSchedules : List Schedule :=
  [{ id := 10, programId := 1, semester := 1, dayOfWeek := 1, timeSlot := 2,
     courseId := 1, teacherId := 1 },
   { id := 11, programId := 1, semester := 1, dayOfWeek := 1, timeSlot := 2,
     courseId := 2, teacherId := 1 },
   { id := 12, programId := 1, semester := 1, dayOfWeek := 2, timeSlot := 3,
     courseId := 3, teacherId := 2 }]

/-- Witness for C1 at the spec's concrete scenario: the double-booked group
(1, 1, 2) holds exactly ids [10, 11] and yields a Conflict, and the empty
schedule set yields none. -/
theorem claim1_witness :
    (1 < (groupIds demoSchedules 1 1 2).length ∧
      ∃ c ∈ detectedConflicts demoSchedules, c.teacherId = 1 ∧
        c.dayOfWeek = 1 ∧ c.timeSlot = 2 ∧
        c.conflictingScheduleIds = groupIds demoSchedules 1 1 2 ∧
        c.resolved = false) ∧
    groupIds demoSchedules 1 1 2 = [10, 11] ∧
    detectedConflicts [] = [] :=
  ⟨⟨by decide,
    claim1_detectConflicts_grouping.2.1 demoSchedules 1 1 2 (by decide)⟩,
   by decide,
   claim1_detectConflicts_grouping.2.2.2.1 []
     (fun t d sl => by simp [groupIds])⟩

/-- C6: each `detectConflicts` run replaces the whole conflict store with
the newly emitted set — the result is a function of the schedule list alone,
whatever conflicts (resolved or not) were stored before — and two
consecutive runs with no intervening schedule mutation emit conflict sets
with identical (teacherId, dayOfWeek, timeSlot, conflictingScheduleIds)
content. -/
theorem claim6_detect_replaces_store :
    (∀ (s : State) (old : List Conflict),
        (detectConflictsRet { s with conflicts := old }).1.conflicts
          = detectedConflicts s.schedules ∧
        (detectConflictsRet s).1.conflicts = (detectConflictsRet s).2) ∧
    (∀ s : State,
        ((detectConflictsRet (detectConflictsRet s).1).2).map
            (fun c =>
              (c.teacherId, c.dayOfWeek, c.timeSlot,
                c.conflictingScheduleIds))
          = ((detectConflictsRet s).2).map
            (fun c =>
              (c.teacherId, c.dayOfWeek, c.timeSlot,
                c.conflictingScheduleIds))) :=
  ⟨fun _ _ => ⟨rfl, rfl⟩, fun _ => rfl⟩

/-! ### Lemmas about the suggestion generator -/

theorem mem_assignIds {u : Nat} {l : List ConflictSuggestion}
    {sug : ConflictSuggestion} (h : sug ∈ assignIds u l) :
    u ≤ sug.id ∧ ∃ core ∈ l, sug = { core with id := sug.id } := by
  unfold assignIds at h
  rcases List.mem_map.1 h with ⟨p, hp, hs⟩
  have hcore : p.2 ∈ l := by
    have : p.2 ∈ l.enum.map Prod.snd := List.mem_map_of_mem _ hp
    rwa [List.enum_map_snd] at this
  refine ⟨?_, p.2, hcore, ?_⟩
  · rw [← hs]; exact Nat.le_add_right u p.1
  · rw [← hs]

theorem mem_moveSuggestionsFor {s : State} {c : Conflict}
    {teacher : Option Teacher} {occupied : List (Nat × Nat)} {e : Schedule}
    {sug : ConflictSuggestion}
    (h : sug ∈ moveSuggestionsFor s c teacher occupied e) :
    ∃ day slot, day < 6 ∧ slot < 5 ∧
      sug = { id := 0
              description := moveDescription (courseNameFor s e.courseId)
                day slot (movePreferenceMatch teacher day slot)
              action := .move
              scheduleId := e.id
              newDayOfWeek := some day
              newTimeSlot := some slot } ∧
      ¬(day = c.dayOfWeek ∧ slot = c.timeSlot) ∧ (day, slot) ∉ occupied := by
  unfold moveSuggestionsFor at h
  rcases List.mem_flatMap.1 h with ⟨day, hday, hin⟩
  rcases List.mem_filterMap.1 hin with ⟨slot, hslot, hsome⟩
  refine ⟨day, slot, List.mem_range.1 hday, List.mem_range.1 hslot, ?_⟩
  split at hsome
  · exact absurd hsome (by simp)
  · split at hsome
    · exact absurd hsome (by simp)
    · next h1 h2 =>
      refine ⟨(Option.some.inj hsome).symm, ?_, h2⟩
      intro hand
      exact h1 (by simp [hand.1, hand.2])

theorem mem_swapSuggestionsFor {s : State} {c : Conflict} {e : Schedule}
    {sug : ConflictSuggestion} (h : sug ∈ swapSuggestionsFor s c e) :
    sug.action = .swap ∧ ∃ o ∈ s.schedules, o.teacherId ≠ c.teacherId ∧
      o.id ∉ c.conflictingScheduleIds ∧ sug.swapWithScheduleId = some o.id ∧
      sug.scheduleId = e.id := by
  unfold swapSuggestionsFor at h
  rcases List.mem_map.1 h with ⟨o, ho, hs⟩
  have hpred := List.of_mem_filter ho
  simp only [Bool.and_eq_true, bne_iff_ne, ne_eq, Bool.not_eq_true'] at hpred
  have hnotin : o.id ∉ c.conflictingScheduleIds := by
    intro hmem
    have hco : c.conflictingScheduleIds.contains o.id = true :=
      List.elem_iff.2 hmem
    rw [hpred.2] at hco
    exact absurd hco (by simp)
  exact ⟨by rw [← hs], o, List.mem_of_mem_filter ho, hpred.1, hnotin,
    by rw [← hs], by rw [← hs]⟩

theorem mem_reassignSuggestionsFor {s : State} {c : Conflict} {e : Schedule}
    {sug : ConflictSuggestion} (h : sug ∈ reassignSuggestionsFor s c e) :
    sug.action = .reassign ∧ ∃ t ∈ s.teachers, t.id ≠ c.teacherId ∧
      sug.newTeacherId = some t.id ∧ sug.scheduleId = e.id ∧
      ¬∃ sch ∈ s.schedules, sch.teacherId = t.id ∧
        sch.dayOfWeek = c.dayOfWeek ∧ sch.timeSlot = c.timeSlot := by
  unfold reassignSuggestionsFor at h
  rcases List.mem_filterMap.1 h with ⟨t, ht, hsome⟩
  have hpred := List.of_mem_filter ht
  simp only [bne_iff_ne, ne_eq] at hpred
  split at hsome
  · exact absurd hsome (by simp)
  · next hbusy =>
    refine ⟨by rw [← Option.some.inj hsome], t, List.mem_of_mem_filter ht,
      hpred, by rw [← Option.some.inj hsome], by rw [← Option.some.inj hsome],
      ?_⟩
    intro ⟨sch, hsch, h1, h2, h3⟩
    exact hbusy (List.any_eq_true.2 ⟨sch, hsch, by simp [h1, h2, h3]⟩)

theorem mem_suggestionCores {s : State} {c : Conflict}
    {sug : ConflictSuggestion} (h : sug ∈ suggestionCores s c) :
    ∃ e ∈ validSchedulesOf s c,
      sug ∈ moveSuggestionsFor s c (findTeacher s c.teacherId)
          (occupiedPairs s.schedules) e ∨
        sug ∈ swapSuggestionsFor s c e ∨
        sug ∈ reassignSuggestionsFor s c e := by
  unfold suggestionCores at h
  split at h
  · exact absurd h (by simp)
  · rcases List.mem_flatMap.1 h with ⟨e, he, hin⟩
    rcases List.mem_append.1 hin with hin | hin
    · rcases List.mem_append.1 hin with hin | hin
      · exact ⟨e, he, Or.inl hin⟩
      · exact ⟨e, he, Or.inr (Or.inl hin)⟩
    · exact ⟨e, he, Or.inr (Or.inr hin)⟩

/-- Every suggestion in a generated batch arises from one of the three
families for some still-valid conflicting entry, with its id freshly
assigned. -/
theorem mem_generate {s : State} {cid : Nat} {c : Conflict}
    {sug : ConflictSuggestion} (hc : findConflict s cid = some c)
    (h : sug ∈ (generateConflictSuggestions s cid).2) :
    s.uuid ≤ sug.id ∧ ∃ e ∈ validSchedulesOf s c,
      ({ sug with id := 0 } : ConflictSuggestion)
          ∈ moveSuggestionsFor s c (findTeacher s c.teacherId)
            (occupiedPairs s.schedules) e ∨
        ({ sug with id := 0 } : ConflictSuggestion) ∈ swapSuggestionsFor s c e ∨
        ({ sug with id := 0 } : ConflictSuggestion)
          ∈ reassignSuggestionsFor s c e := by
  unfold generateConflictSuggestions at h
  rw [hc] at h
  simp only at h
  rcases mem_assignIds h with ⟨hle, core, hcore, heq⟩
  refine ⟨hle, ?_⟩
  rcases mem_suggestionCores hcore with ⟨e, he, hfam⟩
  have hid0 : ({ sug with id := 0 } : ConflictSuggestion)
      = { core with id := 0 } := by rw [heq]
  rcases hfam with hf | hf | hf
  · refine ⟨e, he, Or.inl ?_⟩
    rcases mem_moveSuggestionsFor hf with ⟨day, slot, -, -, hceq, -, -⟩
    rw [hid0, hceq]
    rw [hceq] at hf
    exact hf
  · refine ⟨e, he, Or.inr (Or.inl ?_)⟩
    have : core.id = 0 := by
      unfold swapSuggestionsFor at hf
      rcases List.mem_map.1 hf with ⟨o, -, hs⟩
      rw [← hs]
    rw [hid0]
    have hcc : ({ core with id := 0 } : ConflictSuggestion) = core := by
      rw [← this]
    rw [hcc]
    exact hf
  · refine ⟨e, he, Or.inr (Or.inr ?_)⟩
    have : core.id = 0 := by
      unfold reassignSuggestionsFor at hf
      rcases List.mem_filterMap.1 hf with ⟨t, -, hsome⟩
      split at hsome
      · exact absurd hsome (by simp)
      · rw [← Option.some.inj hsome]
    rw [hid0]
    have hcc : ({ core with id := 0 } : ConflictSuggestion) = core := by
      rw [← this]
    rw [hcc]
    exact hf

theorem filterMap_if_eq_filter_map {α β : Type _} (p : α → Bool) (g : α → β) :
    ∀ l : List α,
      (l.filterMap fun a => if p a then some (g a) else none)
        = (l.filter p).map g
  | [] => rfl
  | a :: l => by
    by_cases h : p a
    · simp [List.filterMap_cons, List.filter_cons, h,
        filterMap_if_eq_filter_map p g l]
    · simp [List.filterMap_cons, List.filter_cons, h,
        filterMap_if_eq_filter_map p g l]

theorem option_map_skip {β γ : Type _} (A : Bool) (B : Prop) [Decidable B]
    (v : β) (g : β → γ) (w : γ) (hv : g v = w) :
    Option.map g (if A = true then none else if B then none else some v)
      = if (!A && !(decide B)) = true then some w else none := by
  by_cases hA : A <;> by_cases hB : B <;> simp [hA, hB, hv]

/-- Modelled from the spec's words (§4.2 Move family): enumerate
day ∈ [0, 6) (outer) and slot ∈ [0, 5) (inner) in ascending nested order,
then drop the conflict's own (day, slot) pair and every occupied pair. -/
def specMoveCandidatePairs (c : Conflict) (occupied : List (Nat × Nat)) :
    List (Nat × Nat) :=
  ((List.range 6).flatMap fun day =>
      (List.range 5).map fun slot => (day, slot)).filter
    fun p => !(p.1 == c.dayOfWeek && p.2 == c.timeSlot)
      && !(decide (p ∈ occupied))

/-- The move family's target pairs are exactly the spec-side ascending
nested enumeration with the two skips applied, in that order. -/
theorem moveSuggestions_enumeration (s : State) (c : Conflict)
    (teacher : Option Teacher) (occupied : List (Nat × Nat)) (e : Schedule) :
    (moveSuggestionsFor s c teacher occupied e).map
        (fun sg => (sg.newDayOfWeek.getD 0, sg.newTimeSlot.getD 0))
      = specMoveCandidatePairs c occupied := by
  unfold moveSuggestionsFor specMoveCandidatePairs
  rw [List.map_flatMap, List.filter_flatMap]
  refine List.flatMap_congr ?_
  intro day _
  rw [List.map_filterMap, List.filter_map]
  rw [List.filterMap_congr
    (fun slot _ => option_map_skip
      (day == c.dayOfWeek && slot == c.timeSlot) ((day, slot) ∈ occupied)
      ({ id := 0
         description := moveDescription (courseNameFor s e.courseId) day slot
           (movePreferenceMatch teacher day slot)
         action := .move
         scheduleId := e.id
         newDayOfWeek := some day
         newTimeSlot := some slot } : ConflictSuggestion)
      (fun sg : ConflictSuggestion =>
        (sg.newDayOfWeek.getD 0, sg.newTimeSlot.getD 0))
      (day, slot) rfl)]
  rw [filterMap_if_eq_filter_map
    (fun slot => !(day == c.dayOfWeek && slot == c.timeSlot)
      && !(decide ((day, slot) ∈ occupied)))
    (fun slot => (day, slot)) (List.range 5)]
  rfl

/-- C2: no move suggestion in a generated batch targets the conflict's own
(dayOfWeek, timeSlot) pair or a pair occupied by any existing schedule entry
of any teacher, and the move family enumerates its candidate pairs as the
ascending nested day-outer/slot-inner scan of [0,6) × [0,5) with exactly
those two skips. -/
theorem claim2_move_targets :
    (∀ (s : State) (cid : Nat) (c : Conflict), findConflict s cid = some c →
      ∀ sug ∈ (generateConflictSuggestions s cid).2,
        sug.action = .move →
        ∃ day slot, sug.newDayOfWeek = some day ∧
          sug.newTimeSlot = some slot ∧
          ¬(day = c.dayOfWeek ∧ slot = c.timeSlot) ∧
          (day, slot) ∉ occupiedPairs s.schedules) ∧
    (∀ (s : State) (c : Conflict) (teacher : Option Teacher)
        (occupied : List (Nat × Nat)) (e : Schedule),
      (moveSuggestionsFor s c teacher occupied e).map
          (fun sg => (sg.newDayOfWeek.getD 0, sg.newTimeSlot.getD 0))
        = specMoveCandidatePairs c occupied) := by
  constructor
  · intro s cid c hc sug hmem hact
    rcases mem_generate hc hmem with ⟨-, e, -, hf | hf | hf⟩
    · rcases mem_moveSuggestionsFor hf with ⟨day, slot, -, -, heq, hown, hocc⟩
      refine ⟨day, slot, ?_, ?_, hown, hocc⟩
      · have := congrArg ConflictSuggestion.newDayOfWeek heq
        simpa using this
      · have := congrArg ConflictSuggestion.newTimeSlot heq
        simpa using this
    · have hsw : sug.action = .swap := (mem_swapSuggestionsFor hf).1
      rw [hact] at hsw
      cases hsw
    · have hra : sug.action = .reassign := (mem_reassignSuggestionsFor hf).1
      rw [hact] at hra
      cases hra
  · intro s c teacher occupied e
    exact moveSuggestions_enumeration s c teacher occupied e

/-- C3: every reassign suggestion targets a teacher in the store whose id
differs from the conflict's teacher and who has no entry at the conflict's
exact (dayOfWeek, timeSlot). -/
theorem claim3_reassign_targets :
    ∀ (s : State) (cid : Nat) (c : Conflict), findConflict s cid = some c →
      ∀ sug ∈ (generateConflictSuggestions s cid).2,
        sug.action = .reassign →
        ∃ t ∈ s.teachers, sug.newTeacherId = some t.id ∧
          t.id ≠ c.teacherId ∧
          ¬∃ sch ∈ s.schedules, sch.teacherId = t.id ∧
            sch.dayOfWeek = c.dayOfWeek ∧ sch.timeSlot = c.timeSlot := by
  intro s cid c hc sug hmem hact
  rcases mem_generate hc hmem with ⟨-, e, -, hf | hf | hf⟩
  · rcases mem_moveSuggestionsFor hf with ⟨day, slot, -, -, heq, -, -⟩
    have hmv : sug.action = .move := by
      have := congrArg ConflictSuggestion.action heq
      simpa using this
    rw [hact] at hmv
    cases hmv
  · have hsw : sug.action = .swap := (mem_swapSuggestionsFor hf).1
    rw [hact] at hsw
    cases hsw
  · rcases mem_reassignSuggestionsFor hf with ⟨-, t, hmem2, hne, hnew, -, hbusy⟩
    exact ⟨t, hmem2, hnew, hne, hbusy⟩

/-- C4: an absent conflict, or fewer than 2 of its schedule ids resolving
against the current store, makes `generateConflictSuggestions` return the
empty list (a successful value, not a failure). -/
theorem claim4_generate_stale_empty :
    ∀ (s : State) (cid : Nat),
      (findConflict s cid = none ∨
        ∃ c, findConflict s cid = some c ∧
          (validSchedulesOf s c).length < 2) →
      (generateConflictSuggestions s cid).2 = [] := by
  intro s cid h
  unfold generateConflictSuggestions
  rcases h with h | ⟨c, hc, hlen⟩
  · rw [h]
  · rw [hc]
    show assignIds s.uuid (suggestionCores s c) = []
    unfold suggestionCores
    rw [if_pos hlen]
    rfl

/-- The conflict of the generator demo state: teacher 1 double-booked at
(day 0, slot 0) by entries 1 and 2. -/
def demoConflict : Conflict := ⟨1, 1, 0, 0, [1, 2], false, []⟩

/-- Generator demo state: teacher 1 double-booked at (0, 0); teacher 2 free
at (0, 0); teacher 3 booked at (0, 0) (so never a reassign target). -/
def genState : State :=
  { courses := []
    teachers := [⟨1, "Alice", none, none, none⟩,
                 ⟨2, "Bob", none, none, none⟩,
                 ⟨3, "Cara", none, none, none⟩]
    schedules := [⟨1, 1, 1, 0, 0, 1, 1, none⟩,
                  ⟨2, 1, 1, 0, 0, 2, 1, none⟩,
                  ⟨3, 1, 1, 1, 1, 3, 2, none⟩,
                  ⟨4, 1, 1, 0, 0, 4, 3, none⟩]
    conflicts := [demoConflict]
    conflictId := 2
    uuid := 0 }

/-- Witness for C2: the first generated suggestion for the demo conflict is
a move whose target pair avoids the conflict's slot and all occupied
pairs. -/
theorem claim2_witness :
    ∃ sug ∈ (generateConflictSuggestions genState 1).2,
      ∃ day slot, sug.newDayOfWeek = some day ∧
        sug.newTimeSlot = some slot ∧
        ¬(day = demoConflict.dayOfWeek ∧ slot = demoConflict.timeSlot) ∧
        (day, slot) ∉ occupiedPairs genState.schedules := by
  refine ⟨(generateConflictSuggestions genState 1).2.head (by decide),
    List.head_mem (by decide), ?_⟩
  exact claim2_move_targets.1 genState 1 demoConflict (by decide)
    ((generateConflictSuggestions genState 1).2.head (by decide))
    (List.head_mem (by decide)) (by decide)

/-- Witness for C3: a generated reassign suggestion for the demo conflict
targets a distinct, not-busy teacher (teacher 2, not the booked
teacher 3). -/
theorem claim3_witness :
    ∃ sug ∈ (generateConflictSuggestions genState 1).2,
      sug.action = SuggestionAction.reassign ∧
      ∃ t ∈ genState.teachers, sug.newTeacherId = some t.id ∧
        t.id ≠ demoConflict.teacherId ∧
        ¬∃ sch ∈ genState.schedules, sch.teacherId = t.id ∧
          sch.dayOfWeek = demoConflict.dayOfWeek ∧
          sch.timeSlot = demoConflict.timeSlot := by
  have hmemf : ((generateConflictSuggestions genState 1).2.filter
      (fun sg => sg.action == SuggestionAction.reassign)).head (by decide)
      ∈ (generateConflictSuggestions genState 1).2.filter
        (fun sg => sg.action == SuggestionAction.reassign) :=
    List.head_mem (by decide)
  have hmem := List.mem_of_mem_filter hmemf
  have hact : (((generateConflictSuggestions genState 1).2.filter
      (fun sg => sg.action == SuggestionAction.reassign)).head
        (by decide)).action = SuggestionAction.reassign := by
    have := List.of_mem_filter hmemf
    simpa using this
  exact ⟨_, hmem, hact,
    claim3_reassign_targets genState 1 demoConflict (by decide) _ hmem hact⟩

/-- A state whose stored conflict references schedule entries 1 and 2 that
have been deleted since detection. -/
def staleState : State :=
  { courses := []
    teachers := []
    schedules := [⟨3, 1, 1, 1, 1, 3, 2, none⟩]
    conflicts := [⟨1, 1, 0, 0, [1, 2], false, []⟩]
    conflictId := 2
    uuid := 0 }

/-- Witness for C4: the stale conflict (0 of its 2 schedule ids resolve)
yields an empty suggestion batch. -/
theorem claim4_witness :
    (generateConflictSuggestions staleState 1).2 = [] :=
  claim4_generate_stale_empty staleState 1
    (Or.inr ⟨⟨1, 1, 0, 0, [1, 2], false, []⟩, by decide, by decide⟩)

/-- C9: for a move candidate slot, `preferenceMatch` is true exactly when
the conflict's teacher has no stored time preferences (teacher absent,
`timePreferences` null, or empty) or some preference covers the candidate
(day, slot) in its inclusive [startTimeSlot, endTimeSlot] range; an inverted
range (start > end) matches no slot; and the computed flag is what the move
suggestion's description embeds. -/
theorem claim9_preference_match :
    (∀ (teacher : Option Teacher) (day slot : Nat),
        movePreferenceMatch teacher day slot = true ↔
          ((∀ t, teacher = some t →
              t.timePreferences = none ∨ t.timePreferences = some []) ∨
            ∃ t prefs pref, teacher = some t ∧
              t.timePreferences = some prefs ∧ pref ∈ prefs ∧
              pref.dayOfWeek = day ∧ pref.startTimeSlot ≤ slot ∧
              slot ≤ pref.endTimeSlot)) ∧
    (∀ (t : Teacher) (prefs : List TimePreference) (day slot : Nat),
        t.timePreferences = some prefs → prefs ≠ [] →
        (∀ pref ∈ prefs, pref.endTimeSlot < pref.startTimeSlot) →
        movePreferenceMatch (some t) day slot = false) ∧
    (∀ (s : State) (c : Conflict) (teacher : Option Teacher)
        (occupied : List (Nat × Nat)) (e : Schedule)
        (sug : ConflictSuggestion),
        sug ∈ moveSuggestionsFor s c teacher occupied e →
        ∃ day slot, sug.newDayOfWeek = some day ∧
          sug.newTimeSlot = some slot ∧
          sug.description = moveDescription (courseNameFor s e.courseId) day
            slot (movePreferenceMatch teacher day slot)) := by
  refine ⟨?_, ?_, ?_⟩
  · intro teacher day slot
    cases teacher with
    | none =>
      simp only [movePreferenceMatch]
      exact ⟨fun _ => Or.inl (fun t h => by cases h), fun _ => trivial⟩
    | some t =>
      cases hp : t.timePreferences with
      | none =>
        simp only [movePreferenceMatch, hp]
        refine ⟨fun _ => Or.inl (fun t' h => ?_), fun _ => trivial⟩
        cases h
        exact Or.inl hp
      | some prefs =>
        by_cases hlen : prefs.length = 0
        · have hnil : prefs = [] := List.length_eq_zero.1 hlen
          subst hnil
          simp only [movePreferenceMatch, hp, if_pos]
          refine ⟨fun _ => Or.inl (fun t' h => ?_), fun _ => by simp⟩
          cases h
          exact Or.inr hp
        · simp only [movePreferenceMatch, hp, hlen, if_neg, if_false]
          constructor
          · intro hany
            rcases List.any_eq_true.1 hany with ⟨pref, hmem, hcond⟩
            simp only [Bool.and_eq_true, beq_iff_eq, decide_eq_true_eq]
              at hcond
            exact Or.inr ⟨t, prefs, pref, rfl, hp, hmem, hcond.1.1,
              hcond.1.2, hcond.2⟩
          · intro h
            rcases h with hno | ⟨t', prefs', pref, ht', hprefs', hmem,
              h1, h2, h3⟩
            · rcases hno t rfl with hcontra | hcontra
              · rw [hp] at hcontra; cases hcontra
              · rw [hp] at hcontra
                have hpe : prefs = [] := Option.some.inj hcontra
                exact absurd (by rw [hpe]; rfl) hlen
            · have ht'' : t' = t := (Option.some.inj ht').symm
              subst ht''
              rw [hp] at hprefs'
              have hpe : prefs' = prefs := (Option.some.inj hprefs').symm
              subst hpe
              exact List.any_eq_true.2 ⟨pref, hmem, by simp [h1, h2, h3]⟩
  · intro t prefs day slot hp hne hinv
    simp only [movePreferenceMatch, hp]
    rw [if_neg (fun h => hne (List.length_eq_zero.1 h))]
    rw [List.any_eq_false]
    intro pref hmem
    have := hinv pref hmem
    simp only [Bool.and_eq_true, beq_iff_eq, decide_eq_true_eq, not_and]
    intro hconj hend
    obtain ⟨-, hstart⟩ := hconj
    omega
  · intro s c teacher occupied e sug h
    rcases mem_moveSuggestionsFor h with ⟨day, slot, -, -, heq, -, -⟩
    refine ⟨day, slot, ?_, ?_, ?_⟩
    · have := congrArg ConflictSuggestion.newDayOfWeek heq
      simpa using this
    · have := congrArg ConflictSuggestion.newTimeSlot heq
      simpa using this
    · have := congrArg ConflictSuggestion.description heq
      simpa using this

/-- A teacher whose only stored preference has an inverted range
(start 3 > end 2). -/
def invTeacher : Teacher := ⟨9, "Inv", none, none, some [⟨1, 3, 2⟩]⟩

/-- Witness for C9: the inverted range matches nothing, even at its own day
and an in-between slot; a teacher-less lookup matches everything. -/
theorem claim9_witness :
    movePreferenceMatch (some invTeacher) 1 2 = false ∧
    movePreferenceMatch none 4 4 = true :=
  ⟨claim9_preference_match.2.1 invTeacher [⟨1, 3, 2⟩] 1 2 rfl (by simp)
      (by decide),
   by decide⟩

/-- C10: `generateConflictSuggestions` performs no store writes — schedules,
teachers, courses and the conflict store (hence every stored conflict's
suggestions and resolved flag) are unchanged, both for the raw operation and
for the GET suggestions endpoint — and, because suggestion ids are fresh
tokens, no id in a freshly served batch occurs among the conflict's stored
suggestion ids. -/
theorem claim10_generate_pure :
    (∀ (s : State) (cid : Nat),
        (generateConflictSuggestions s cid).1.schedules = s.schedules ∧
        (generateConflictSuggestions s cid).1.teachers = s.teachers ∧
        (generateConflictSuggestions s cid).1.courses = s.courses ∧
        (generateConflictSuggestions s cid).1.conflicts = s.conflicts) ∧
    (∀ (s : State) (cid : Nat),
        (suggestionsRoute s cid).1.schedules = s.schedules ∧
        (suggestionsRoute s cid).1.teachers = s.teachers ∧
        (suggestionsRoute s cid).1.courses = s.courses ∧
        (suggestionsRoute s cid).1.conflicts = s.conflicts) ∧
    (∀ (s : State) (cid : Nat) (c : Conflict)
        (batch : List ConflictSuggestion),
        findConflict s cid = some c →
        (∀ sg ∈ c.suggestions, sg.id < s.uuid) →
        (suggestionsRoute s cid).2 = some batch →
        ∀ sg ∈ batch, sg.id ∉ c.suggestions.map (fun x => x.id)) := by
  refine ⟨?_, ?_, ?_⟩
  · intro s cid
    unfold generateConflictSuggestions
    cases hfc : findConflict s cid <;> simp
  · intro s cid
    unfold suggestionsRoute generateConflictSuggestions
    cases hfc : findConflict s cid <;> simp [hfc]
  · intro s cid c batch hc hfresh hroute sg hmem hbad
    have hbatch : batch = (generateConflictSuggestions s cid).2 := by
      unfold suggestionsRoute at hroute
      rw [hc] at hroute
      exact (Option.some.inj hroute).symm
    rw [hbatch] at hmem
    have hle : s.uuid ≤ sg.id := (mem_generate hc hmem).1
    rcases List.mem_map.1 hbad with ⟨old, hold, holdid⟩
    have := hfresh old hold
    omega

/-- A state whose stored conflict already carries an attached suggestion
(id 3) generated before the uuid counter reached its current value 7. -/
def c10State : State :=
  { courses := []
    teachers := []
    schedules := [⟨1, 1, 1, 0, 0, 1, 1, none⟩, ⟨2, 1, 1, 0, 0, 2, 1, none⟩]
    conflicts := [⟨1, 1, 0, 0, [1, 2], false,
      [⟨3, "old", .move, 1, some 2, some 2, none, none⟩]⟩]
    conflictId := 2
    uuid := 7 }

/-- Witness for C10: every id in the freshly served batch differs from the
stored suggestion id 3, and the endpoint leaves the store untouched. -/
theorem claim10_witness :
    (∀ sg ∈ (generateConflictSuggestions c10State 1).2,
      sg.id ∉ (([⟨3, "old", .move, 1, some 2, some 2, none, none⟩] :
        List ConflictSuggestion).map (fun x => x.id))) ∧
    (suggestionsRoute c10State 1).1.conflicts = c10State.conflicts :=
  ⟨claim10_generate_pure.2.2 c10State 1
      ⟨1, 1, 0, 0, [1, 2], false,
        [⟨3, "old", .move, 1, some 2, some 2, none, none⟩]⟩
      (generateConflictSuggestions c10State 1).2
      (by decide) (by decide) rfl,
   (claim10_generate_pure.2.1 c10State 1).2.2.2⟩

/-- Two entries of teacher 1 colliding at (day 1, slot 2), detection not yet
run. -/
def collideState : State :=
  { courses := []
    teachers := []
    schedules := [⟨1, 1, 1, 1, 2, 1, 1, none⟩, ⟨2, 1, 1, 1, 2, 2, 1, none⟩]
    conflicts := []
    conflictId := 1
    uuid := 0 }

/-- C7 (code defect exhibit): at the moment `detectConflicts` returns, the
emitted conflict is stored and returned, but its `suggestions` are still
`[]`, although the dispatched (un-awaited) generation would produce a
non-empty batch — the attachment has not happened by the time the caller
resumes. -/
theorem claim7_fire_and_forget :
    (detectConflictsRet collideState).2 ≠ [] ∧
    (detectConflictsRet collideState).1.conflicts
      = (detectConflictsRet collideState).2 ∧
    (∀ c ∈ (detectConflictsRet collideState).1.conflicts,
      c.suggestions = []) ∧
    (generateConflictSuggestions (detectConflictsRet collideState).1 1).2
      ≠ [] := by
  refine ⟨by decide, rfl, by decide, by decide⟩

/-! ### Lemmas about schedule updates -/

theorem find?_setScheduleById_same {l : List Schedule} {id : Nat}
    {A v : Schedule} (h : l.find? (fun sch => sch.id == id) = some A)
    (hv : v.id = id) :
    (setScheduleById l id v).find? (fun sch => sch.id == id) = some v := by
  induction l with
  | nil => cases h
  | cons a l ih =>
    simp only [setScheduleById, List.map_cons]
    by_cases ha : (a.id == id) = true
    · rw [if_pos ha]
      rw [List.find?_cons_of_pos _ (by simp [hv])]
    · rw [if_neg ha]
      rw [List.find?_cons_of_neg _ (by simp_all)]
      rw [List.find?_cons_of_neg _ (by simp_all)] at h
      exact ih h

theorem find?_setScheduleById_other {l : List Schedule} {id pid : Nat}
    {v : Schedule} (hv : v.id = id) (hne : pid ≠ id) :
    (setScheduleById l id v).find? (fun sch => sch.id == pid)
      = l.find? (fun sch => sch.id == pid) := by
  induction l with
  | nil => rfl
  | cons a l ih =>
    simp only [setScheduleById, List.map_cons]
    by_cases ha : (a.id == id) = true
    · rw [if_pos ha]
      have ha' : a.id = id := by simpa using ha
      rw [List.find?_cons_of_neg _
        (by simp [hv]; exact fun hh => hne hh.symm)]
      rw [List.find?_cons_of_neg _
        (by simp [ha']; exact fun hh => hne hh.symm)]
      exact ih
    · rw [if_neg ha]
      by_cases hpa : (a.id == pid) = true
      · rw [@List.find?_cons_of_pos _ (fun sch : Schedule => sch.id == pid)
            a _ hpa,
          @List.find?_cons_of_pos _ (fun sch : Schedule => sch.id == pid)
            a _ hpa]
      · rw [List.find?_cons_of_neg _ (by simp_all),
          List.find?_cons_of_neg _ (by simp_all)]
        exact ih

/-- A stored swap suggestion exchanging entry 1 (the conflicting one)
with entry 3 (another teacher's entry at (1, 1)). -/
def swapSuggestion : ConflictSuggestion :=
  ⟨5, "swap entry 1 with entry 3", .swap, 1, none, none, none, some 3⟩

/-- Teacher 1 double-booked at (0, 0) by entries 1 and 2; teacher 2 holds
entry 3 at (1, 1); the stored conflict carries `swapSuggestion`. -/
def swapState : State :=
  { courses := []
    teachers := []
    schedules := [⟨1, 1, 1, 0, 0, 1, 1, none⟩,
                  ⟨2, 1, 1, 0, 0, 2, 1, none⟩,
                  ⟨3, 1, 1, 1, 1, 3, 2, none⟩]
    conflicts := [⟨1, 1, 0, 0, [1, 2], false, [swapSuggestion]⟩]
    conflictId := 2
    uuid := 9 }

/-- C5 counterexample: resolving the swap succeeds, but the first detection
pass the call triggers (the one `updateSchedule` awaits after writing entry
1) consumes the half-swapped schedule list — entry 1 already moved to
(1, 1), entry 3 still at (1, 1) — which differs from both the pre-swap and
the post-swap lists.  So a detection pass does observe the half-swapped
state, contrary to the claim. -/
theorem claim5_counterexample :
    (resolveRoute swapState 1 (some 5)).2.1 = HttpOut.ok ∧
    (resolveRoute swapState 1 (some 5)).2.2.head? =
      some [⟨1, 1, 1, 1, 1, 1, 1, none⟩, ⟨2, 1, 1, 0, 0, 2, 1, none⟩,
            ⟨3, 1, 1, 1, 1, 3, 2, none⟩] ∧
    ([⟨1, 1, 1, 1, 1, 1, 1, none⟩, ⟨2, 1, 1, 0, 0, 2, 1, none⟩,
      ⟨3, 1, 1, 1, 1, 3, 2, none⟩] : List Schedule)
      ≠ swapState.schedules ∧
    ([⟨1, 1, 1, 1, 1, 1, 1, none⟩, ⟨2, 1, 1, 0, 0, 2, 1, none⟩,
      ⟨3, 1, 1, 1, 1, 3, 2, none⟩] : List Schedule)
      ≠ (resolveRoute swapState 1 (some 5)).1.schedules := by
  refine ⟨by decide, by decide, by decide, by decide⟩

/-- C5 amended: applying a swap suggestion over two existing entries leaves,
in the final state, entry A at B's pre-swap (day, slot) and entry B at A's
pre-swap (day, slot), and the last detection pass of the call runs on that
fully swapped schedule list (so the caller and the final re-detection see
both changes together); the detection pass triggered inside the first
`updateSchedule`, however, runs between the two writes (see the
counterexample). -/
theorem claim5_swap_post (s : State) (cid sid : Nat) (c : Conflict)
    (sug : ConflictSuggestion) (bid : Nat) (A B : Schedule)
    (hc : findConflict s cid = some c)
    (hsug : c.suggestions.find? (fun sg => sg.id == sid) = some sug)
    (hact : sug.action = .swap)
    (hbid : sug.swapWithScheduleId = some bid)
    (hA : findSchedule s sug.scheduleId = some A)
    (hB : findSchedule s bid = some B)
    (hne : A.id ≠ B.id) :
    (resolveRoute s cid (some sid)).2.1 = HttpOut.ok ∧
    findSchedule (resolveRoute s cid (some sid)).1 A.id
      = some { A with dayOfWeek := B.dayOfWeek, timeSlot := B.timeSlot } ∧
    findSchedule (resolveRoute s cid (some sid)).1 B.id
      = some { B with dayOfWeek := A.dayOfWeek, timeSlot := A.timeSlot } ∧
    (resolveRoute s cid (some sid)).2.2.getLast?
      = some (resolveRoute s cid (some sid)).1.schedules := by
  have hAid : A.id = sug.scheduleId := by simpa using List.find?_some hA
  have hBid : B.id = bid := by simpa using List.find?_some hB
  have hBA : B.id ≠ A.id := fun h => hne h.symm
  have hA2 : List.find? (fun sch => sch.id == A.id) s.schedules = some A := by
    have : findSchedule s A.id = some A := by rw [hAid]; exact hA
    exact this
  have hB2 : List.find? (fun sch => sch.id == B.id) s.schedules = some B := by
    have : findSchedule s B.id = some B := by rw [hBid]; exact hB
    exact this
  have hfB : (setScheduleById s.schedules A.id
        { A with dayOfWeek := B.dayOfWeek, timeSlot := B.timeSlot }).find?
        (fun sch => sch.id == B.id) = some B := by
    rw [find?_setScheduleById_other
      (show ({ A with dayOfWeek := B.dayOfWeek, timeSlot := B.timeSlot } :
        Schedule).id = A.id from rfl) hBA]
    exact hB2
  simp only [resolveRoute, hc, hsug, hact, hbid, hAid.symm, hBid.symm,
    updateSchedule, findSchedule, applyPatch, Option.getD_some,
    Option.getD_none, detectConflictsRet, resolveFinish,
    updateConflictResolved, hA2, hB2, hfB]
  refine ⟨by trivial, ?_, ?_, by trivial⟩
  · rw [find?_setScheduleById_other
      (show ({ B with dayOfWeek := A.dayOfWeek, timeSlot := A.timeSlot } :
        Schedule).id = B.id from rfl) hne]
    exact find?_setScheduleById_same hA2 rfl
  · exact find?_setScheduleById_same hfB rfl

/-- Witness for the amended C5 theorem at the concrete swap scenario: entry
1 ends at entry 3's pre-swap (1, 1), entry 3 at entry 1's pre-swap (0, 0),
and the final detection pass ran on the final (fully swapped) list. -/
theorem claim5_witness :
    (resolveRoute swapState 1 (some 5)).2.1 = HttpOut.ok ∧
    findSchedule (resolveRoute swapState 1 (some 5)).1 1
      = some ⟨1, 1, 1, 1, 1, 1, 1, none⟩ ∧
    findSchedule (resolveRoute swapState 1 (some 5)).1 3
      = some ⟨3, 1, 1, 0, 0, 3, 2, none⟩ ∧
    (resolveRoute swapState 1 (some 5)).2.2.getLast?
      = some (resolveRoute swapState 1 (some 5)).1.schedules :=
  claim5_swap_post swapState 1 5
    ⟨1, 1, 0, 0, [1, 2], false, [swapSuggestion]⟩ swapSuggestion 3
    ⟨1, 1, 1, 0, 0, 1, 1, none⟩ ⟨3, 1, 1, 1, 1, 3, 2, none⟩
    (by decide) (by decide) (by decide) (by decide) (by decide) (by decide)
    (by decide)

/-- C8 amended: the resolve route returns 404 exactly for an absent
conflict id, an absent suggestion id, or a swap whose two referenced
schedule ids do not both resolve; it returns 400 exactly for a missing
suggestionId parameter or a swap suggestion without swapWithScheduleId;
move and reassign suggestions succeed even when their referenced schedule
or teacher ids are absent (nothing checks them); every error outcome leaves
the state untouched; and on success the final conflict store is the
re-detection of the final schedule list. -/
theorem claim8_resolve_errors :
    (∀ (s : State) (cid : Nat) (sid : Option Nat),
        (resolveRoute s cid sid).2.1 ≠ HttpOut.ok →
        (resolveRoute s cid sid).1 = s) ∧
    (∀ (s : State) (cid : Nat),
        (resolveRoute s cid none).2.1 = HttpOut.badRequest) ∧
    (∀ (s : State) (cid sid : Nat), findConflict s cid = none →
        (resolveRoute s cid (some sid)).2.1 = HttpOut.notFound) ∧
    (∀ (s : State) (cid sid : Nat) (c : Conflict),
        findConflict s cid = some c →
        c.suggestions.find? (fun sg => sg.id == sid) = none →
        (resolveRoute s cid (some sid)).2.1 = HttpOut.notFound) ∧
    (∀ (s : State) (cid sid : Nat) (c : Conflict)
        (sug : ConflictSuggestion),
        findConflict s cid = some c →
        c.suggestions.find? (fun sg => sg.id == sid) = some sug →
        sug.action = .swap → sug.swapWithScheduleId = none →
        (resolveRoute s cid (some sid)).2.1 = HttpOut.badRequest) ∧
    (∀ (s : State) (cid sid : Nat) (c : Conflict)
        (sug : ConflictSuggestion) (bid : Nat),
        findConflict s cid = some c →
        c.suggestions.find? (fun sg => sg.id == sid) = some sug →
        sug.action = .swap → sug.swapWithScheduleId = some bid →
        (findSchedule s sug.scheduleId = none ∨ findSchedule s bid = none) →
        (resolveRoute s cid (some sid)).2.1 = HttpOut.notFound) ∧
    (∀ (s : State) (cid sid : Nat) (c : Conflict)
        (sug : ConflictSuggestion),
        findConflict s cid = some c →
        c.suggestions.find? (fun sg => sg.id == sid) = some sug →
        (sug.action = .move ∨ sug.action = .reassign ∨
          (sug.action = .swap ∧ ∃ bid sch1 sch2,
            sug.swapWithScheduleId = some bid ∧
            findSchedule s sug.scheduleId = some sch1 ∧
            findSchedule s bid = some sch2)) →
        (resolveRoute s cid (some sid)).2.1 = HttpOut.ok) ∧
    (∀ (s : State) (cid : Nat) (sid : Option Nat),
        (resolveRoute s cid sid).2.1 = HttpOut.ok →
        (resolveRoute s cid sid).1.conflicts
          = detectedConflicts (resolveRoute s cid sid).1.schedules) := by
  refine ⟨?_, ?_, ?_, ?_, ?_, ?_, ?_, ?_⟩
  · intro s cid sid h
    match sid with
    | none => rfl
    | some sid =>
      cases hfc : findConflict s cid with
      | none => simp [resolveRoute, hfc]
      | some c =>
        cases hfs : c.suggestions.find? (fun sg => sg.id == sid) with
        | none => simp [resolveRoute, hfc, hfs]
        | some sug =>
          cases hact : sug.action with
          | move => simp [resolveRoute, hfc, hfs, hact] at h
          | reassign => simp [resolveRoute, hfc, hfs, hact] at h
          | swap =>
            cases hbid : sug.swapWithScheduleId with
            | none => simp [resolveRoute, hfc, hfs, hact, hbid]
            | some bid =>
              cases hs1 : findSchedule s sug.scheduleId with
              | none => simp [resolveRoute, hfc, hfs, hact, hbid, hs1]
              | some sch1 =>
                cases hs2 : findSchedule s bid with
                | none => simp [resolveRoute, hfc, hfs, hact, hbid, hs1, hs2]
                | some sch2 =>
                  simp [resolveRoute, hfc, hfs, hact, hbid, hs1, hs2] at h
  · intro s cid
    rfl
  · intro s cid sid hfc
    simp [resolveRoute, hfc]
  · intro s cid sid c hfc hfs
    simp [resolveRoute, hfc, hfs]
  · intro s cid sid c sug hfc hfs hact hbid
    simp [resolveRoute, hfc, hfs, hact, hbid]
  · intro s cid sid c sug bid hfc hfs hact hbid hmiss
    rcases hmiss with h1 | h2
    · simp [resolveRoute, hfc, hfs, hact, hbid, h1]
    · cases hs1 : findSchedule s sug.scheduleId with
      | none => simp [resolveRoute, hfc, hfs, hact, hbid, hs1]
      | some sch1 => simp [resolveRoute, hfc, hfs, hact, hbid, hs1, h2]
  · intro s cid sid c sug hfc hfs hcase
    rcases hcase with hact | hact | ⟨hact, bid, sch1, sch2, hbid, hs1, hs2⟩
    · simp [resolveRoute, hfc, hfs, hact]
    · simp [resolveRoute, hfc, hfs, hact]
    · simp [resolveRoute, hfc, hfs, hact, hbid, hs1, hs2]
  · intro s cid sid h
    match sid with
    | none => simp [resolveRoute] at h
    | some sid =>
      cases hfc : findConflict s cid with
      | none => simp [resolveRoute, hfc] at h
      | some c =>
        cases hfs : c.suggestions.find? (fun sg => sg.id == sid) with
        | none => simp [resolveRoute, hfc, hfs] at h
        | some sug =>
          cases hact : sug.action with
          | move => simp [resolveRoute, hfc, hfs, hact, resolveFinish,
              updateSchedule, detectConflictsRet]
          | reassign => simp [resolveRoute, hfc, hfs, hact, resolveFinish,
              updateSchedule, detectConflictsRet]
          | swap =>
            cases hbid : sug.swapWithScheduleId with
            | none => simp [resolveRoute, hfc, hfs, hact, hbid] at h
            | some bid =>
              cases hs1 : findSchedule s sug.scheduleId with
              | none => simp [resolveRoute, hfc, hfs, hact, hbid, hs1] at h
              | some sch1 =>
                cases hs2 : findSchedule s bid with
                | none =>
                  simp [resolveRoute, hfc, hfs, hact, hbid, hs1, hs2] at h
                | some sch2 =>
                  simp [resolveRoute, hfc, hfs, hact, hbid, hs1, hs2,
                    resolveFinish, updateSchedule, detectConflictsRet]

/-- A state whose stored conflict carries a move suggestion (id 5) whose
target schedule 99 has been deleted; schedule 3 is unrelated. -/
def resolveBugState : State :=
  { courses := []
    teachers := []
    schedules := [⟨3, 1, 1, 1, 1, 3, 2, none⟩]
    conflicts := [⟨1, 1, 0, 0, [1, 2], false,
      [⟨5, "move deleted entry 99", .move, 99, some 2, some 2, none,
        none⟩]⟩]
    conflictId := 2
    uuid := 9 }

/-- C8 counterexample: a move suggestion referencing the absent schedule id
99 resolves with success (the claim requires NotFound whenever a referenced
schedule id is absent), and an absent suggestion id yields the NotFound
outcome (404), not the claim's InvalidSuggestion (the 400 outcome). -/
theorem claim8_counterexample :
    findSchedule resolveBugState 99 = none ∧
    (resolveRoute resolveBugState 1 (some 5)).2.1 = HttpOut.ok ∧
    (resolveRoute resolveBugState 1 (some 6)).2.1 = HttpOut.notFound ∧
    (resolveRoute resolveBugState 1 (some 6)).2.1 ≠ HttpOut.badRequest := by
  refine ⟨by decide, by decide, by decide, by decide⟩

/-- Witness for the amended C8 theorem: an absent conflict id gives 404 and
leaves the state unchanged. -/
theorem claim8_witness :
    (resolveRoute genState 99 (some 1)).2.1 = HttpOut.notFound ∧
    (resolveRoute genState 99 (some 1)).1 = genState :=
  ⟨claim8_resolve_errors.2.2.1 genState 99 1 (by decide),
   claim8_resolve_errors.1 genState 99 (some 1) (by decide)⟩

end ClassSchedule
